import Mathlib

/-!
Shallow embedding of the shell component in src/ui/src/App.vue of
stairch/pr-tools.

The component keeps two reactive cells (App.vue lines 7 to 8):
  userData : null initially, then the parsed JSON session or the JS
  literal false, and showUserOptions : a boolean, false initially.
At mount (lines 10 to 21) it awaits fetch of /api/auth/me; when the
response is ok it stores the parsed body, otherwise it stores false;
afterwards it registers a click listener on document.body that sets
showUserOptions to false.  If the fetch promise rejects, the await
throws inside the async callback, so neither assignment nor the
listener registration runs.

The template (lines 25 onwards) renders the Forbidden view when
userData == false (JS loose equality), the full shell when userData is
truthy, and nothing otherwise.  Inside the shell, the div.user badge
has a click handler with the .stop modifier that sets showUserOptions
to true, and the div.options popover (shown only while showUserOptions
holds) has a bare click .stop modifier.

Clicks are modelled by explicit DOM event propagation: a click hits a
target, whose chain of ancestors with handlers is walked innermost
first, each handler runs, and a .stop modifier ends the walk before it
reaches the document body listener.
-/

namespace PrTools

/-- The session object returned by GET /api/auth/me, with the fields the
template reads: displayName, userPrincipalName, mail. -/
structure UserSession where
  displayName : String
  userPrincipalName : String
  mail : String
  deriving DecidableEq

/-- The value held by the userData ref (App.vue line 7): null before the
fetch resolves, the JS literal false after a non-ok response (line 15),
or the parsed session object after an ok response (line 13). -/
inductive UData where
  | unset
  | jsFalse
  | auth (s : UserSession)
  deriving DecidableEq

/-- JS loose equality of userData with false, as in the template guard
userData == false (App.vue line 25): null == false is false, false ==
false is true, and an object is never loosely equal to false. -/
def jsEqFalse : UData → Bool
  | .unset => false
  | .jsFalse => true
  | .auth _ => false

/-- JS truthiness of userData, as in the v-else-if guard (line 27):
null and false are falsy, an object is truthy. -/
def jsTruthy : UData → Bool
  | .unset => false
  | .jsFalse => false
  | .auth _ => true

/-- Is userData the present (authenticated) state? -/
def isAuth : UData → Bool
  | .auth _ => true
  | _ => false

/-- The component state: the two refs plus whether the document.body
click listener of App.vue lines 18 to 20 has been registered. -/
structure ShellState where
  userData : UData
  showUserOptions : Bool
  bodyListenerRegistered : Bool
  deriving DecidableEq

/-- State at mount, before onMounted runs: userData = null,
showUserOptions = false, no body listener yet (App.vue lines 7 to 8). -/
def initState : ShellState :=
  { userData := .unset, showUserOptions := false, bodyListenerRegistered := false }

/-- How the single fetch of /api/auth/me can settle: an ok response with
a parsed JSON session body, a non-ok response, or a rejection of the
promise (network failure). -/
inductive FetchOutcome where
  | ok (s : UserSession)
  | err
  | reject
  deriving DecidableEq

/-- The onMounted callback (App.vue lines 10 to 21) applied to the
outcome of the awaited fetch.  On ok the parsed body is stored; on a
non-ok response false is stored; in both cases the body click listener
is then registered.  On rejection the await throws, so the state is
left untouched and the listener is never registered. -/
def settleFetch (st : ShellState) : FetchOutcome → ShellState
  | .ok s => { st with userData := .auth s, bodyListenerRegistered := true }
  | .err => { st with userData := .jsFalse, bodyListenerRegistered := true }
  | .reject => st

/-- The DOM nodes that carry a click handler in App.vue: the options
popover (line 70, bare @click.stop), the user badge (line 64,
@click.stop setting showUserOptions to true), and document.body (the
listener registered at lines 18 to 20). -/
inductive Node where
  | optionsBox
  | userBadge
  | documentBody
  deriving DecidableEq

/-- The effect of each click handler on the component state, read off
the template.  The bare @click.stop on div.options runs no code; the
handler on div.user assigns showUserOptions = true; the body listener
assigns showUserOptions = false, but only exists once registered. -/
def nodeAction (st : ShellState) : Node → ShellState
  | .optionsBox => st
  | .userBadge => { st with showUserOptions := true }
  | .documentBody =>
      if st.bodyListenerRegistered then { st with showUserOptions := false } else st

/-- Whether the handler carries the .stop modifier, ending propagation:
both template handlers do (lines 64 and 70); the body listener is the
end of the chain anyway. -/
def stopsPropagation : Node → Bool
  | .optionsBox => true
  | .userBadge => true
  | .documentBody => false

/-- Walk the propagation chain innermost first: run each handler, and
stop when a handler has the .stop modifier. -/
def dispatch (st : ShellState) : List Node → ShellState
  | [] => st
  | n :: rest =>
      if stopsPropagation n then nodeAction st n
      else dispatch (nodeAction st n) rest

/-- Where a document click can land: inside the options popover, on the
user badge (outside the popover), or anywhere else in the document. -/
inductive ClickTarget where
  | insideOptions
  | onUserBadge
  | elsewhere
  deriving DecidableEq

/-- The v-else-if guard: the full shell is rendered exactly when
userData is truthy (App.vue line 27). -/
def shellRendered (st : ShellState) : Bool :=
  jsTruthy st.userData

/-- The chain of handler-bearing nodes a click reaches, innermost
first.  The popover exists only while the shell is rendered and
showUserOptions holds; the badge exists only while the shell is
rendered; a click on a spot whose element is absent is a plain
document click, reaching only document.body. -/
def clickPath (st : ShellState) : ClickTarget → List Node
  | .insideOptions =>
      if shellRendered st && st.showUserOptions then
        [.optionsBox, .userBadge, .documentBody]
      else [.documentBody]
  | .onUserBadge =>
      if shellRendered st then [.userBadge, .documentBody]
      else [.documentBody]
  | .elsewhere => [.documentBody]

/-- The events the component can observe after mount: the single fetch
settling, and document clicks. -/
inductive Event where
  | fetchSettled (o : FetchOutcome)
  | click (t : ClickTarget)
  deriving DecidableEq

/-- One step of the component. -/
def step (st : ShellState) : Event → ShellState
  | .fetchSettled o => settleFetch st o
  | .click t => dispatch st (clickPath st t)

/-- Run a list of events from a state. -/
def runFrom (st : ShellState) : List Event → ShellState
  | [] => st
  | e :: es => runFrom (step st e) es

/-- The states the component can reach from mount; the Bool records
whether the single fetch has already settled, so a trace contains at
most one fetchSettled event. -/
inductive Reached : ShellState → Bool → Prop where
  | init : Reached initState false
  | click {st : ShellState} {f : Bool} (t : ClickTarget) :
      Reached st f → Reached (step st (.click t)) f
  | settle {st : ShellState} (o : FetchOutcome) :
      Reached st false → Reached (step st (.fetchSettled o)) true

/-- A state is reachable when some valid trace ends in it. -/
def Reachable (st : ShellState) : Prop :=
  ∃ f, Reached st f

/-- The options popover content (App.vue lines 70 to 86): the sign-out
anchor and the user data block. -/
structure OptionsView where
  signOutHref : String
  userPrincipalName : String
  mail : String
  deriving DecidableEq

/-- The full shell (App.vue lines 26 to 92): logo link, the three nav
entries, the user badge text, the conditional options popover, and the
nested RouterView region. -/
structure ShellView where
  logoTo : String
  navTargets : List String
  displayName : String
  options : Option OptionsView
  hasRouterView : Bool
  deriving DecidableEq

/-- The rendered output: the Forbidden view, the full shell, or
nothing. -/
inductive Render where
  | empty
  | forbidden
  | shell (v : ShellView)
  deriving DecidableEq

/-- The options popover rendered from a session. -/
def optionsViewOf (s : UserSession) : OptionsView :=
  { signOutHref := "/api/auth/signout"
  , userPrincipalName := s.userPrincipalName
  , mail := s.mail }

/-- The shell rendered from a session and the popover flag, with the
constant parts read off the template: the logo router-link to /, the
three nav router-links, and the RouterView region. -/
def shellViewOf (s : UserSession) (visible : Bool) : ShellView :=
  { logoTo := "/"
  , navTargets := ["/announcements", "/discord/users", "/promotion-schedule"]
  , displayName := s.displayName
  , options := if visible then some (optionsViewOf s) else none
  , hasRouterView := true }

/-- The template as a function of the state (App.vue lines 25 to 92):
Forbidden when userData == false, the shell when userData is truthy,
nothing otherwise. -/
def render (st : ShellState) : Render :=
  if jsEqFalse st.userData then .forbidden
  else match st.userData with
    | .auth s => .shell (shellViewOf s st.showUserOptions)
    | _ => .empty

/-- The nav targets visible in a rendered output; the Forbidden view
and the empty output contain no navigation links. -/
def navTargetsOf : Render → List String
  | .shell v => v.navTargets
  | _ => []

/-- Is the rendered output the full shell? -/
def renderIsShell : Render → Bool
  | .shell _ => true
  | _ => false

/-- The interactive elements of the template, for the handler table. -/
inductive TemplateElem where
  | logoLink
  | announcementsLink
  | discordUsersLink
  | promotionScheduleLink
  | userBadgeDiv
  | optionsDiv
  | signOutAnchor
  deriving DecidableEq

/-- Which template elements carry a click binding in App.vue: only
div.user (line 64) and div.options (line 70); in particular the
sign-out anchor (line 74) has none. -/
def hasClickBinding : TemplateElem → Bool
  | .userBadgeDiv => true
  | .optionsDiv => true
  | _ => false

/-- The plain href attributes of the template: only the sign-out anchor
has one, pointing at the external endpoint (App.vue line 74). -/
def templateHref : TemplateElem → Option String
  | .signOutAnchor => some "/api/auth/signout"
  | _ => none

/-- Does exactly one of the three auth states hold of a userData
value? -/
def oneOfThree (u : UData) : Bool :=
  ((if u = .unset then 1 else 0)
    + (if u = .jsFalse then 1 else 0)
    + (if isAuth u then 1 else 0)) == 1

/-- The number of steps along a trace at which userData leaves the
initial null (unknown) state. -/
def transitionsOut (st : ShellState) : List Event → Nat
  | [] => 0
  | e :: es =>
      (if st.userData = .unset ∧ (step st e).userData ≠ .unset then 1 else 0)
        + transitionsOut (step st e) es

/-- The concrete session of the spec scenario. -/
def sampleSession : UserSession :=
  { displayName := "A. User"
  , userPrincipalName := "auser@example.com"
  , mail := "auser@example.com" }

/-- A concrete authenticated state: the fetch resolved ok. -/
def authState : ShellState :=
  step initState (.fetchSettled (.ok sampleSession))

/-- The authenticated state after a click on the user badge: the
options popover is open. -/
def openState : ShellState :=
  step authState (.click .onUserBadge)

/-- A click handler never writes userData: only the fetch callback
does. -/
theorem nodeAction_userData (st : ShellState) (n : Node) :
    (nodeAction st n).userData = st.userData := by
  cases n
  · rfl
  · rfl
  · simp only [nodeAction]; split <;> rfl

/-- A click handler never registers or removes the body listener. -/
theorem nodeAction_listener (st : ShellState) (n : Node) :
    (nodeAction st n).bodyListenerRegistered = st.bodyListenerRegistered := by
  cases n
  · rfl
  · rfl
  · simp only [nodeAction]; split <;> rfl

/-- Propagating a click leaves userData untouched. -/
theorem dispatch_userData (ns : List Node) (st : ShellState) :
    (dispatch st ns).userData = st.userData := by
  induction ns generalizing st with
  | nil => rfl
  | cons n rest ih =>
      simp only [dispatch]
      split
      · exact nodeAction_userData st n
      · rw [ih, nodeAction_userData]

/-- Propagating a click leaves the body listener untouched. -/
theorem dispatch_listener (ns : List Node) (st : ShellState) :
    (dispatch st ns).bodyListenerRegistered = st.bodyListenerRegistered := by
  induction ns generalizing st with
  | nil => rfl
  | cons n rest ih =>
      simp only [dispatch]
      split
      · exact nodeAction_listener st n
      · rw [ih, nodeAction_listener]

/-- A click step changes neither userData nor the listener flag. -/
theorem step_click_frame (st : ShellState) (t : ClickTarget) :
    (step st (.click t)).userData = st.userData
      ∧ (step st (.click t)).bodyListenerRegistered = st.bodyListenerRegistered :=
  ⟨dispatch_userData _ st, dispatch_listener _ st⟩

/-- The invariant carried by every reachable state: before the fetch
settles the state is exactly the mount state; the popover flag is set
only in the authenticated state; and whenever the shell is rendered
the body listener has been registered. -/
def Inv (st : ShellState) (f : Bool) : Prop :=
  (f = false → st = initState)
    ∧ (st.showUserOptions = true → isAuth st.userData = true)
    ∧ (shellRendered st = true → st.bodyListenerRegistered = true)

/-- When the shell is not rendered every click degenerates to a plain
document click, reaching only the body listener. -/
theorem clickPath_not_rendered {st : ShellState} (h : shellRendered st = false)
    (t : ClickTarget) : clickPath st t = [.documentBody] := by
  cases t <;> simp [clickPath, h]

/-- A click inside the open popover stops at the popover handler. -/
theorem clickPath_insideOptions {st : ShellState} (h : shellRendered st = true)
    (hv : st.showUserOptions = true) :
    clickPath st .insideOptions = [.optionsBox, .userBadge, .documentBody] := by
  simp [clickPath, h, hv]

/-- A click on the rendered user badge reaches its handler first. -/
theorem clickPath_onUserBadge {st : ShellState} (h : shellRendered st = true) :
    clickPath st .onUserBadge = [.userBadge, .documentBody] := by
  simp [clickPath, h]

/-- A click that reaches only document.body runs just the body
listener. -/
theorem dispatch_body (st : ShellState) :
    dispatch st [.documentBody] = nodeAction st .documentBody := rfl

/-- A click whose chain starts at the user badge sets the popover flag
and propagates no further. -/
theorem dispatch_badge (st : ShellState) (rest : List Node) :
    dispatch st (.userBadge :: rest) = { st with showUserOptions := true } := rfl

/-- A click whose chain starts at the popover runs no code and
propagates no further. -/
theorem dispatch_options (st : ShellState) (rest : List Node) :
    dispatch st (.optionsBox :: rest) = st := rfl

/-- A rendered shell means userData holds a session. -/
theorem shellRendered_auth {st : ShellState} (h : shellRendered st = true) :
    ∃ s, st.userData = UData.auth s := by
  cases hu : st.userData with
  | unset => rw [shellRendered, hu] at h; exact absurd h (by simp [jsTruthy])
  | jsFalse => rw [shellRendered, hu] at h; exact absurd h (by simp [jsTruthy])
  | auth s => exact ⟨s, rfl⟩

/-- Every reachable state satisfies the invariant. -/
theorem reached_inv {st : ShellState} {f : Bool} (h : Reached st f) : Inv st f := by
  induction h with
  | init =>
      refine ⟨fun _ => rfl, ?_, ?_⟩ <;>
        simp [initState, isAuth, shellRendered, jsTruthy]
  | click t h ih =>
      obtain ⟨h1, h2, h3⟩ := ih
      rename_i st f
      by_cases hr : shellRendered st = true
      · -- authenticated: the badge and (possibly) the popover exist
        obtain ⟨s, hs⟩ := shellRendered_auth hr
        have hreg := h3 hr
        have hf : f = true := by
          cases f
          · exact absurd (congrArg shellRendered (h1 rfl) ▸ hr)
              (by simp [shellRendered, initState, jsTruthy])
          · rfl
        subst hf
        cases t with
        | insideOptions =>
            cases hv : st.showUserOptions with
            | true =>
                have hstep : step st (.click .insideOptions) = st := by
                  rw [step, clickPath_insideOptions hr hv, dispatch_options]
                rw [hstep]
                exact ⟨h1, h2, h3⟩
            | false =>
                have hstep : step st (.click .insideOptions)
                    = { st with showUserOptions := false } := by
                  simp [step, clickPath, hr, hv, dispatch_body, nodeAction, hreg]
                rw [hstep]
                refine ⟨by simp, ?_, ?_⟩
                · intro hcon; exact absurd hcon (by simp)
                · intro _; exact hreg
        | onUserBadge =>
            have hstep : step st (.click .onUserBadge)
                = { st with showUserOptions := true } := by
              rw [step, clickPath_onUserBadge hr, dispatch_badge]
            rw [hstep]
            refine ⟨by simp, ?_, ?_⟩
            · intro _; rw [hs]; rfl
            · intro _; exact hreg
        | elsewhere =>
            have hstep : step st (.click .elsewhere)
                = { st with showUserOptions := false } := by
              simp [step, clickPath, dispatch_body, nodeAction, hreg]
            rw [hstep]
            refine ⟨by simp, ?_, ?_⟩
            · intro hcon; exact absurd hcon (by simp)
            · intro _; exact hreg
      · -- shell not rendered: the click reaches only the body listener
        have hfalse : shellRendered st = false := by
          cases hsr : shellRendered st
          · rfl
          · exact absurd hsr hr
        have hpath := clickPath_not_rendered hfalse t
        cases hreg : st.bodyListenerRegistered with
        | false =>
            have hstep : step st (.click t) = st := by
              simp [step, hpath, dispatch_body, nodeAction, hreg]
            rw [hstep]
            exact ⟨h1, h2, h3⟩
        | true =>
            have hstep : step st (.click t)
                = { st with showUserOptions := false } := by
              simp [step, hpath, dispatch_body, nodeAction, hreg]
            rw [hstep]
            refine ⟨?_, ?_, ?_⟩
            · intro hf
              have h0 := h1 hf
              rw [h0] at hreg
              exact absurd hreg (by simp [initState])
            · intro hcon; exact absurd hcon (by simp)
            · intro hsr
              exact hreg
  | settle o h ih =>
      have h0 := ih.1 rfl
      subst h0
      cases o <;>
        refine ⟨by simp, ?_, ?_⟩ <;>
          simp [step, settleFetch, initState, isAuth, shellRendered, jsTruthy]

/-- C1, counterexample: when the fetch promise rejects, the onMounted
callback throws before either assignment to userData runs, so the
component stays in the unknown state and renders nothing; it does not
end in the absent state (userData = false) and does not render the
restricted-access view, contrary to the claim that every failure
outcome does. -/
theorem C1_cex :
    (settleFetch initState FetchOutcome.reject).userData = UData.unset
      ∧ UData.unset ≠ UData.jsFalse
      ∧ render (settleFetch initState FetchOutcome.reject) = Render.empty
      ∧ Render.empty ≠ Render.forbidden := by
  refine ⟨rfl, ?_, rfl, ?_⟩ <;> decide

/-- C1, amended: a response with a non-success status stores false in
userData and renders the restricted-access view; a rejection of the
fetch promise leaves the state untouched (userData still null), so
from the mount state a rejection leaves the output empty rather than
restricted: rejection IS distinguished from a 401 or 5xx status. -/
theorem C1_amended (st : ShellState) :
    (settleFetch st FetchOutcome.err).userData = UData.jsFalse
      ∧ render (settleFetch st FetchOutcome.err) = Render.forbidden
      ∧ settleFetch st FetchOutcome.reject = st
      ∧ render (settleFetch initState FetchOutcome.reject) = Render.empty :=
  ⟨rfl, rfl, rfl, rfl⟩

/-- C2: in every reachable state in which the shell is rendered, a
click on the user badge sets the popover flag and changes nothing else
(its .stop modifier keeps the click from the body listener); a click
inside the open popover leaves the whole state unchanged; any other
document click clears the popover flag. -/
theorem C2_clicks (st : ShellState) (h : Reachable st)
    (hr : shellRendered st = true) :
    step st (.click .onUserBadge) = { st with showUserOptions := true }
      ∧ (st.showUserOptions = true → step st (.click .insideOptions) = st)
      ∧ (step st (.click .elsewhere)).showUserOptions = false := by
  obtain ⟨f, hf⟩ := h
  have hreg := (reached_inv hf).2.2 hr
  refine ⟨?_, ?_, ?_⟩
  · rw [step, clickPath_onUserBadge hr, dispatch_badge]
  · intro hv
    rw [step, clickPath_insideOptions hr hv, dispatch_options]
  · simp [step, clickPath, dispatch_body, nodeAction, hreg]

/-- C2, witness: the concrete authenticated state with the popover
open. -/
theorem C2_clicks_witness :
    step openState (.click .onUserBadge) = { openState with showUserOptions := true }
      ∧ step openState (.click .insideOptions) = openState
      ∧ (step openState (.click .elsewhere)).showUserOptions = false := by
  have h := C2_clicks openState
    ⟨true, Reached.click ClickTarget.onUserBadge
      (Reached.settle (FetchOutcome.ok sampleSession) Reached.init)⟩ rfl
  exact ⟨h.1, h.2.1 rfl, h.2.2⟩

/-- C3: while userData is still null (fetch not yet resolved), both
template branches are skipped and the rendered output is empty. -/
theorem C3_loading (st : ShellState) (h : st.userData = UData.unset) :
    render st = Render.empty := by
  simp [render, h, jsEqFalse]

/-- C3, witness: the mount state renders nothing. -/
theorem C3_loading_witness :
    initState.userData = UData.unset ∧ render initState = Render.empty :=
  ⟨rfl, C3_loading initState rfl⟩

/-- C4: an ok response with a JSON session body stores the session and
renders the full shell, whose user badge shows the session's
displayName. -/
theorem C4_success (st : ShellState) (s : UserSession) :
    (settleFetch st (FetchOutcome.ok s)).userData = UData.auth s
      ∧ render (settleFetch st (FetchOutcome.ok s))
          = Render.shell (shellViewOf s st.showUserOptions)
      ∧ (shellViewOf s st.showUserOptions).displayName = s.displayName :=
  ⟨rfl, rfl, rfl⟩

/-- C5: a non-success response renders the restricted-access view
(Forbidden), never the shell, and the output contains no navigation
links. -/
theorem C5_forbidden (st : ShellState) :
    render (settleFetch st FetchOutcome.err) = Render.forbidden
      ∧ renderIsShell (render (settleFetch st FetchOutcome.err)) = false
      ∧ navTargetsOf (render (settleFetch st FetchOutcome.err)) = [] :=
  ⟨rfl, rfl, rfl⟩

/-- C6, counterexample: along the trace in which the single fetch
settles by rejecting, userData never leaves the unknown state, so the
transition out of unknown happens zero times over the whole mount, not
exactly once as claimed. -/
theorem C6_cex :
    transitionsOut initState [Event.fetchSettled FetchOutcome.reject] = 0
      ∧ transitionsOut initState [Event.fetchSettled FetchOutcome.reject] ≠ 1 := by
  refine ⟨rfl, ?_⟩; decide

/-- C6, amended: exactly one of the three auth states holds at any
time; userData is still unknown until the fetch settles and is only
ever written by the settling of the single fetch, hence at most once:
an ok response moves it to present, a non-success response to absent,
and a rejection leaves it unknown; clicks never change it, so the
stored session is never mutated after creation. -/
theorem C6_authState (st : ShellState) (f : Bool) (h : Reached st f)
    (t : ClickTarget) (s : UserSession) :
    oneOfThree st.userData = true
      ∧ (f = false → st.userData = UData.unset)
      ∧ (step st (Event.click t)).userData = st.userData
      ∧ (settleFetch st (FetchOutcome.ok s)).userData = UData.auth s
      ∧ (settleFetch st FetchOutcome.err).userData = UData.jsFalse
      ∧ settleFetch st FetchOutcome.reject = st := by
  refine ⟨?_, ?_, dispatch_userData _ st, rfl, rfl, rfl⟩
  · cases st.userData <;> rfl
  · intro hf
    rw [(reached_inv h).1 hf]
    rfl

/-- C6, witness: the amended statement at the mount state. -/
theorem C6_authState_witness :
    oneOfThree initState.userData = true
      ∧ initState.userData = UData.unset
      ∧ (step initState (Event.click ClickTarget.elsewhere)).userData = initState.userData
      ∧ (settleFetch initState (FetchOutcome.ok sampleSession)).userData
          = UData.auth sampleSession
      ∧ (settleFetch initState FetchOutcome.err).userData = UData.jsFalse
      ∧ settleFetch initState FetchOutcome.reject = initState := by
  have h := C6_authState initState false Reached.init ClickTarget.elsewhere sampleSession
  exact ⟨h.1, h.2.1 rfl, h.2.2.1, h.2.2.2.1, h.2.2.2.2.1, h.2.2.2.2.2⟩

/-- C7: the popover flag starts false, and in every reachable state it
is true only while userData holds a session (authenticated); in the
unknown and absent states it is false. -/
theorem C7_optionsInv (st : ShellState) (h : Reachable st) :
    initState.showUserOptions = false
      ∧ (st.showUserOptions = true → isAuth st.userData = true) := by
  obtain ⟨f, hf⟩ := h
  exact ⟨rfl, fun hv => (reached_inv hf).2.1 hv⟩

/-- C7, witness: the reachable state with the popover open is
authenticated. -/
theorem C7_optionsInv_witness :
    initState.showUserOptions = false ∧ isAuth openState.userData = true := by
  have h := C7_optionsInv openState
    ⟨true, Reached.click ClickTarget.onUserBadge
      (Reached.settle (FetchOutcome.ok sampleSession) Reached.init)⟩
  exact ⟨h.1, h.2 rfl⟩

/-- C8: whenever the shell is rendered it contains exactly three
navigation entries, targeting /announcements, /discord/users and
/promotion-schedule. -/
theorem C8_navTargets (st : ShellState) (v : ShellView)
    (h : render st = Render.shell v) :
    v.navTargets = ["/announcements", "/discord/users", "/promotion-schedule"]
      ∧ v.navTargets.length = 3 := by
  cases hu : st.userData with
  | unset => simp [render, hu, jsEqFalse] at h
  | jsFalse => simp [render, hu, jsEqFalse] at h
  | auth s =>
      simp only [render, hu, jsEqFalse, if_neg Bool.false_ne_true] at h
      injection h with h
      rw [← h]
      exact ⟨rfl, rfl⟩

/-- C8, witness: the shell rendered by the concrete authenticated
state. -/
theorem C8_navTargets_witness :
    (shellViewOf sampleSession false).navTargets
        = ["/announcements", "/discord/users", "/promotion-schedule"]
      ∧ (shellViewOf sampleSession false).navTargets.length = 3 :=
  C8_navTargets authState (shellViewOf sampleSession false) rfl

/-- C9: sign-out is exposed solely as a plain anchor whose href is the
external endpoint /api/auth/signout; the anchor carries no click
binding, and the rendered popover exposes the same href. -/
theorem C9_signOut (s : UserSession) :
    hasClickBinding TemplateElem.signOutAnchor = false
      ∧ templateHref TemplateElem.signOutAnchor = some "/api/auth/signout"
      ∧ (optionsViewOf s).signOutHref = "/api/auth/signout" :=
  ⟨rfl, rfl, rfl⟩

/-- C10: before the fetch settles (userData null, listener absent) a
document click leaves the state unchanged; a rejection of the fetch
never registers the body listener; clicks never register it either;
and once registered no event removes it (the source installs no
removeEventListener and no unmount hook). -/
theorem C10_listener (st st2 : ShellState) (t t2 : ClickTarget) (e : Event)
    (h1 : st.userData = UData.unset) (h2 : st.bodyListenerRegistered = false)
    (h3 : st2.bodyListenerRegistered = true) :
    step st (Event.click t) = st
      ∧ (settleFetch st FetchOutcome.reject).bodyListenerRegistered = false
      ∧ (step st2 (Event.click t2)).bodyListenerRegistered = st2.bodyListenerRegistered
      ∧ (step st2 e).bodyListenerRegistered = true := by
  refine ⟨?_, h2, dispatch_listener _ st2, ?_⟩
  · have hfalse : shellRendered st = false := by rw [shellRendered, h1]; rfl
    rw [step, clickPath_not_rendered hfalse, dispatch_body]
    simp [nodeAction, h2]
  · cases e with
    | click t3 => rw [step, dispatch_listener]; exact h3
    | fetchSettled o => cases o <;> first | rfl | exact h3

/-- C10, witness: the mount state and the concrete authenticated
state. -/
theorem C10_listener_witness :
    step initState (Event.click ClickTarget.elsewhere) = initState
      ∧ (settleFetch initState FetchOutcome.reject).bodyListenerRegistered = false
      ∧ (step authState (Event.click ClickTarget.onUserBadge)).bodyListenerRegistered
          = authState.bodyListenerRegistered
      ∧ (step authState (Event.click ClickTarget.elsewhere)).bodyListenerRegistered = true :=
  C10_listener initState authState ClickTarget.elsewhere ClickTarget.onUserBadge
    (Event.click ClickTarget.elsewhere) rfl rfl rfl

example : render initState = Render.empty := rfl
example : authState.userData = UData.auth sampleSession := rfl
example : authState.showUserOptions = false := rfl
example : authState.bodyListenerRegistered = true := rfl
example : openState.showUserOptions = true := rfl
example : render openState = Render.shell (shellViewOf sampleSession true) := rfl
example : step openState (.click .insideOptions) = openState := by decide
example : (step openState (.click .elsewhere)).showUserOptions = false := by decide
example : step initState (.fetchSettled .reject) = initState := rfl
example : render (step initState (.fetchSettled .err)) = Render.forbidden := rfl

end PrTools


